import Mathlib

/-!
Shallow embedding of the frame rendering and synchronization engine of the
`rust-vulkan-tutorial` repository (src/app.rs and src/vulkan/synchronization.rs).

Vulkan handles are modelled as natural numbers, with `0` playing the role of the
null handle (`vk::Fence::null()`).  The CPU-side control flow of `App::render`,
`App::recreate_swapchain` and `create_sync_objects` is translated directly; the
GPU is an external agent, so the outcomes of `acquire_next_image_khr` and
`queue_present_khr` are passed in as oracle parameters, and the observable
driver calls made by the CPU are recorded in an event trace.  Rust `Vec`
indexing `v[i]` panics when out of bounds; this is modelled by `List.get?`
returning `none`, in which case the function returns the `oob` outcome.
-/

namespace VulkanTutorial

/-- Vulkan object handle (`vk::Fence`, `vk::Semaphore`, ... are 64-bit handles);
`0` is the null handle. -/
abbrev Handle := Nat

abbrev Fence := Handle
abbrev Semaphore := Handle
abbrev Image := Handle
abbrev CommandBuffer := Handle

/-- `vk::Fence::null()`. -/
def Fence.null : Fence := 0

/-- `vk::Handle::is_null` for fences: the handle equals the null handle. -/
def fenceIsNull (f : Fence) : Bool := f == Fence.null

/-- `pub const MAX_FRAMES_IN_FLIGHT: usize = 3;` (src/app.rs). -/
def MAX_FRAMES_IN_FLIGHT : Nat := 3

/-- The success codes of the Vulkan calls the frame loop inspects. -/
inductive SuccessCode
  | SUCCESS
  | SUBOPTIMAL_KHR
  deriving DecidableEq

/-- The error codes the frame loop distinguishes; every code other than
`OUT_OF_DATE_KHR` is treated uniformly by `App::render`. -/
inductive ErrorCode
  | OUT_OF_DATE_KHR
  | OUT_OF_HOST_MEMORY
  | OUT_OF_DEVICE_MEMORY
  | DEVICE_LOST
  | SURFACE_LOST_KHR
  deriving DecidableEq

/-- Pipeline stage flags appearing in the submit info. -/
inductive PipelineStageFlags
  | TOP_OF_PIPE
  | VERTEX_SHADER
  | COLOR_ATTACHMENT_OUTPUT
  deriving DecidableEq

/-- The fields of `vk::SubmitInfo` populated by `App::render`
(src/app.rs lines 230-241). -/
structure SubmitInfo where
  wait_semaphores : List Semaphore
  wait_dst_stage_mask : List PipelineStageFlags
  command_buffers : List CommandBuffer
  signal_semaphores : List Semaphore
  deriving DecidableEq

/-- Observable CPU-to-driver calls, as recorded in the trace of a run. -/
inductive Event
  | WaitForFences (fences : List Fence)
  | AcquireNextImage (signalSemaphore : Semaphore)
  | UpdateUniformBuffer (imageIndex : Nat)
  | ResetFences (fences : List Fence)
  | QueueSubmit (info : SubmitInfo) (fence : Fence)
  | QueuePresent (waitSemaphores : List Semaphore) (imageIndex : Nat)
  | DeviceWaitIdle
  | DestroySwapchainObjects
  | CreateSwapchainObjects (imageCount : Nat)
  | CreateSemaphore (s : Semaphore)
  | CreateFence (f : Fence) (signaled : Bool)
  deriving DecidableEq

/-- The fields of `AppData` (src/app.rs lines 354-422) that the frame loop and
the synchronization pool read or write.  The remaining fields (pipeline,
render pass, descriptor objects, texture and depth resources, ...) are opaque
handles never inspected by the code under verification. -/
structure AppData where
  swapchain_images : List Image
  command_buffers : List CommandBuffer
  image_available_semaphores : List Semaphore
  render_finished_semaphores : List Semaphore
  command_completion_fences : List Fence
  image_usage_fences : List Fence
  uniform_buffers_memory : List Handle
  deriving DecidableEq

/-- CPU-visible device-object state: the next fresh handle the driver hands
out, and the set of fences currently in the signaled state as far as CPU-side
operations (creation with the SIGNALED flag, `reset_fences`) determine it.
GPU-side signaling is asynchronous and outside this state. -/
structure DeviceState where
  nextHandle : Handle
  signaledFences : List Fence
  deriving DecidableEq

/-- The `App` fields driving the frame loop (src/app.rs lines 40-48):
`frame` is the in-flight slot counter, `resized` the externally set resize
flag. -/
structure App where
  device : DeviceState
  data : AppData
  frame : Nat
  resized : Bool
  deriving DecidableEq

/-- Outcome of a call that in Rust returns `Result<()>` and may also panic on
out-of-bounds `Vec` indexing. -/
inductive RenderResult
  | ok
  | vkError (e : ErrorCode)
  | oob
  deriving DecidableEq

/-- `Vec::resize(new_len, value)`: truncates when shrinking, appends copies of
`value` when growing. -/
def vecResize (v : List α) (newLen : Nat) (value : α) : List α :=
  if newLen ≤ v.length then v.take newLen
  else v ++ List.replicate (newLen - v.length) value

/-- `vkCreateSemaphore`: hands out a fresh handle. -/
def create_semaphore (d : DeviceState) : Semaphore × DeviceState :=
  (d.nextHandle, { d with nextHandle := d.nextHandle + 1 })

/-- `vkCreateFence` with `vk::FenceCreateFlags::SIGNALED`: hands out a fresh
handle that starts in the signaled state. -/
def create_fence_signaled (d : DeviceState) : Fence × DeviceState :=
  (d.nextHandle,
   { nextHandle := d.nextHandle + 1,
     signaledFences := d.nextHandle :: d.signaledFences })

/-- The `for _ in 0..MAX_FRAMES_IN_FLIGHT` loop of `create_sync_objects`
(src/vulkan/synchronization.rs lines 67-74): each iteration pushes one
image-available semaphore, one render-finished semaphore and one pre-signaled
command-completion fence. -/
def syncObjectsLoop : Nat → DeviceState → AppData → List Event →
    DeviceState × AppData × List Event
  | 0, d, data, tr => (d, data, tr)
  | Nat.succ m, d, data, tr =>
    let p1 := create_semaphore d
    let p2 := create_semaphore p1.2
    let p3 := create_fence_signaled p2.2
    syncObjectsLoop m p3.2
      { data with
        image_available_semaphores := data.image_available_semaphores ++ [p1.1],
        render_finished_semaphores := data.render_finished_semaphores ++ [p2.1],
        command_completion_fences := data.command_completion_fences ++ [p3.1] }
      (tr ++ [Event.CreateSemaphore p1.1, Event.CreateSemaphore p2.1,
              Event.CreateFence p3.1 true])

/-- `create_sync_objects` (src/vulkan/synchronization.rs lines 63-79): runs the
loop `MAX_FRAMES_IN_FLIGHT` times, then sets
`image_usage_fences = vec![vk::Fence::null(); swapchain_images.len()]`.
Object creation is modelled as infallible (the source propagates allocation
failures with `?`; no claim concerns that path). -/
def create_sync_objects (d : DeviceState) (data : AppData) :
    DeviceState × AppData × List Event :=
  let r := syncObjectsLoop MAX_FRAMES_IN_FLIGHT d data []
  (r.1,
   { r.2.1 with
     image_usage_fences :=
       List.replicate r.2.1.swapchain_images.length Fence.null },
   r.2.2)

/-- The result of the swapchain-scoped creation calls inside
`recreate_swapchain` (`create_swapchain` through `create_command_buffers`,
src/app.rs lines 90-99): the new image chain with its per-image command
buffers and uniform-buffer memories. -/
structure SwapchainCfg where
  newImages : List Image
  newCommandBuffers : List CommandBuffer
  newUniformBuffersMemory : List Handle
  deriving DecidableEq

/-- Modelled from the spec: `create_swapchain` lives in
src/vulkan/swapchain.rs, which is not present in the source tree (only
declared in src/vulkan/mod.rs).  Per the spec's Swapchain Manager contract,
the requested image count is the surface minimum plus one, capped at the
surface maximum when that maximum is nonzero (a maximum of 0 means
unbounded). -/
def swapchainImageCount (minImageCount maxImageCount : Nat) : Nat :=
  if maxImageCount = 0 then minImageCount + 1
  else min (minImageCount + 1) maxImageCount

/-- `App::recreate_swapchain` (src/app.rs lines 84-105): waits for the device
to be idle, destroys the swapchain-scoped objects, rebuilds them, and finally
resizes `command_completion_fences` — the source resizes that array, not
`image_usage_fences` — to the new image count with null fences as fill
(lines 100-102).  The rebuild steps are fallible in the source (`?`); the
oracle `rc` supplies either the new chain or the failing step's error code.
None of the steps before the final resize touch the semaphore, fence or
image-usage arrays, so on failure those fields are returned unchanged, as in
the source. -/
def recreate_swapchain (app : App) (rc : Except ErrorCode SwapchainCfg) :
    RenderResult × App × List Event :=
  match rc with
  | Except.error e =>
    (RenderResult.vkError e, app, [Event.DeviceWaitIdle, Event.DestroySwapchainObjects])
  | Except.ok cfg =>
    (RenderResult.ok,
     { app with data :=
        { app.data with
          swapchain_images := cfg.newImages,
          command_buffers := cfg.newCommandBuffers,
          uniform_buffers_memory := cfg.newUniformBuffersMemory,
          command_completion_fences :=
            vecResize app.data.command_completion_fences
              cfg.newImages.length Fence.null } },
     [Event.DeviceWaitIdle, Event.DestroySwapchainObjects,
      Event.CreateSwapchainObjects cfg.newImages.length])

/-- `result == Ok(vk::SuccessCode::SUBOPTIMAL_KHR) ||
 result == Err(vk::ErrorCode::OUT_OF_DATE_KHR)` (src/app.rs lines 271-272). -/
def presentChanged (pr : Except ErrorCode SuccessCode) : Bool :=
  match pr with
  | Except.ok SuccessCode.SUBOPTIMAL_KHR => true
  | Except.error ErrorCode.OUT_OF_DATE_KHR => true
  | _ => false

/-- `App::render` (src/app.rs lines 169-284), translated statement by
statement.  `ar` is the outcome of `acquire_next_image_khr`, `pr` the outcome
of `queue_present_khr`, `rc` the outcome of the swapchain rebuild should
`recreate_swapchain` be called.  Returns the outcome, the new app state and
the trace of driver calls. -/
def render (app : App)
    (ar : Except ErrorCode (Nat × SuccessCode))
    (pr : Except ErrorCode SuccessCode)
    (rc : Except ErrorCode SwapchainCfg) :
    RenderResult × App × List Event :=
  match app.data.command_completion_fences[app.frame]? with
  | none => (RenderResult.oob, app, [])
  | some frameFence =>
  match app.data.image_available_semaphores[app.frame]? with
  | none => (RenderResult.oob, app, [Event.WaitForFences [frameFence]])
  | some imageAvailable =>
  let tr0 := [Event.WaitForFences [frameFence], Event.AcquireNextImage imageAvailable]
  match ar with
  | Except.error ErrorCode.OUT_OF_DATE_KHR =>
    let r := recreate_swapchain app rc
    (r.1, r.2.1, tr0 ++ r.2.2)
  | Except.error e => (RenderResult.vkError e, app, tr0)
  | Except.ok (image_index, _) =>
  match app.data.image_usage_fences[image_index]? with
  | none => (RenderResult.oob, app, tr0)
  | some imageFence =>
  let tr1 := tr0 ++ (if fenceIsNull imageFence then []
                     else [Event.WaitForFences [imageFence]])
  let app1 := { app with data :=
    { app.data with
      image_usage_fences :=
        app.data.image_usage_fences.set image_index frameFence } }
  match app1.data.uniform_buffers_memory[image_index]? with
  | none => (RenderResult.oob, app1, tr1)
  | some _ =>
  let tr2 := tr1 ++ [Event.UpdateUniformBuffer image_index]
  match app1.data.command_buffers[image_index]? with
  | none => (RenderResult.oob, app1, tr2)
  | some commandBuffer =>
  match app1.data.render_finished_semaphores[app1.frame]? with
  | none => (RenderResult.oob, app1, tr2)
  | some renderFinished =>
  let submit_info : SubmitInfo :=
    { wait_semaphores := [imageAvailable],
      wait_dst_stage_mask := [PipelineStageFlags.COLOR_ATTACHMENT_OUTPUT],
      command_buffers := [commandBuffer],
      signal_semaphores := [renderFinished] }
  let app2 := { app1 with device :=
    { app1.device with
      signaledFences := app1.device.signaledFences.filter (fun f => f != frameFence) } }
  let tr3 := tr2 ++ [Event.ResetFences [frameFence],
                     Event.QueueSubmit submit_info frameFence,
                     Event.QueuePresent [renderFinished] image_index]
  if app2.resized || presentChanged pr then
    let app3 := { app2 with resized := false }
    let r := recreate_swapchain app3 rc
    match r.1 with
    | RenderResult.ok =>
      (RenderResult.ok,
       { r.2.1 with frame := (r.2.1.frame + 1) % MAX_FRAMES_IN_FLIGHT },
       tr3 ++ r.2.2)
    | other => (other, r.2.1, tr3 ++ r.2.2)
  else
    match pr with
    | Except.error e => (RenderResult.vkError e, app2, tr3)
    | Except.ok _ =>
      (RenderResult.ok,
       { app2 with frame := (app2.frame + 1) % MAX_FRAMES_IN_FLIGHT },
       tr3)

/-! ### Concrete states used to exercise the definitions -/

/-- A reachable-looking app state right after some frames have been rendered:
a 3-image swapchain, the three per-slot arrays of length `MAX_FRAMES_IN_FLIGHT`,
image 0's last-use fence set to slot 2's command-completion fence, and the
frame counter at slot 2. -/
def app0 : App :=
  { device := { nextHandle := 100, signaledFences := [4, 5, 6] },
    data :=
      { swapchain_images := [31, 32, 33],
        command_buffers := [41, 42, 43],
        image_available_semaphores := [11, 12, 13],
        render_finished_semaphores := [21, 22, 23],
        command_completion_fences := [4, 5, 6],
        image_usage_fences := [6, 0, 0],
        uniform_buffers_memory := [51, 52, 53] },
    frame := 2,
    resized := false }

/-- A rebuild outcome with a 2-image chain: per the spec's Swapchain Manager
contract this arises from a surface with minimum image count 1 and maximum 2
(`swapchainImageCount 1 2 = 2`), and the spec's own test scenario poses
`MAX_FRAMES_IN_FLIGHT = 3` with image count 2. -/
def cfg2 : SwapchainCfg :=
  { newImages := [34, 35],
    newCommandBuffers := [44, 45],
    newUniformBuffersMemory := [54, 55] }

/-- A rebuild outcome with a 3-image chain (image count unchanged). -/
def cfg3 : SwapchainCfg :=
  { newImages := [34, 35, 36],
    newCommandBuffers := [44, 45, 46],
    newUniformBuffersMemory := [54, 55, 56] }

/-- The 2-image chain configuration is sanctioned by the spec's image-count
formula: minimum 1, maximum 2 gives 2 images. -/
theorem cfg2_image_count_from_spec :
    cfg2.newImages.length = swapchainImageCount 1 2 := by decide

/-- Is this event a `vkResetFences` call? -/
def isResetEvent : Event → Bool
  | Event.ResetFences _ => true
  | _ => false

/-- Is this event an `update_uniform_buffer` call? -/
def isUpdateEvent : Event → Bool
  | Event.UpdateUniformBuffer _ => true
  | _ => false

/-- Is this event a `vkQueueSubmit` call? -/
def isSubmitEvent : Event → Bool
  | Event.QueueSubmit _ _ => true
  | _ => false

/-- Is this event a `vkQueuePresentKHR` call? -/
def isPresentEvent : Event → Bool
  | Event.QueuePresent _ _ => true
  | _ => false

/-- Is this event part of a swapchain recreation (the device-idle barrier,
the teardown, or the rebuild)? -/
def isRecreationEvent : Event → Bool
  | Event.DeviceWaitIdle => true
  | Event.DestroySwapchainObjects => true
  | Event.CreateSwapchainObjects _ => true
  | _ => false

/-- Is this event a blocking CPU-side wait (`vkWaitForFences` or
`vkDeviceWaitIdle`)? -/
def isBlockingWaitEvent : Event → Bool
  | Event.WaitForFences _ => true
  | Event.DeviceWaitIdle => true
  | _ => false

/-! ### C1 -/

/-- C1: the claim states that after `recreate_swapchain` returns successfully,
`image_usage_fences` has length equal to the new swapchain image count and
every entry is null.  Evaluating the code at a failing input: recreating from
a 3-image chain whose image 0 carries the non-null last-use fence 6 to a
2-image chain succeeds, yet `image_usage_fences` is left completely untouched
(length 3, stale non-null entry) — the source instead resizes
`command_completion_fences` (src/app.rs lines 100-102). -/
theorem recreate_swapchain_leaves_image_usage_fences_stale :
    (recreate_swapchain app0 (Except.ok cfg2)).1 = RenderResult.ok ∧
    (recreate_swapchain app0 (Except.ok cfg2)).2.1.data.swapchain_images.length = 2 ∧
    (recreate_swapchain app0 (Except.ok cfg2)).2.1.data.image_usage_fences = [6, 0, 0] ∧
    (recreate_swapchain app0 (Except.ok cfg2)).2.1.data.image_usage_fences.length ≠ 2 ∧
    (recreate_swapchain app0 (Except.ok cfg2)).2.1.data.image_usage_fences.get? 0 ≠
      some Fence.null := by
  decide

/-! ### C2 -/

/-- C2: the claim states that the three per-slot arrays keep length
`MAX_FRAMES_IN_FLIGHT` across every operation, including
`recreate_swapchain`.  Evaluating the code at a failing input: a successful
recreation to a 2-image chain truncates `command_completion_fences` to length
2 (the source resizes it to the image count, src/app.rs lines 100-102), so
the invariant is broken while the two semaphore arrays do keep length 3. -/
theorem recreate_swapchain_breaks_slot_invariant :
    (recreate_swapchain app0 (Except.ok cfg2)).1 = RenderResult.ok ∧
    (recreate_swapchain app0 (Except.ok cfg2)).2.1.data.command_completion_fences = [4, 5] ∧
    (recreate_swapchain app0 (Except.ok cfg2)).2.1.data.command_completion_fences.length ≠
      MAX_FRAMES_IN_FLIGHT ∧
    (recreate_swapchain app0 (Except.ok cfg2)).2.1.data.image_available_semaphores.length =
      MAX_FRAMES_IN_FLIGHT ∧
    (recreate_swapchain app0 (Except.ok cfg2)).2.1.data.render_finished_semaphores.length =
      MAX_FRAMES_IN_FLIGHT := by
  decide

/-! ### C3 -/

/-- The app state after `render` at slot 2 hits `OUT_OF_DATE` on acquire and
successfully recreates the swapchain with a 2-image chain. -/
def appAfterShrink : App :=
  (render app0 (Except.error ErrorCode.OUT_OF_DATE_KHR)
    (Except.ok SuccessCode.SUCCESS) (Except.ok cfg2)).2.1

/-- C3: the claim states the frame index (always below
`MAX_FRAMES_IN_FLIGHT`) is a valid index into the three per-slot arrays on
every `render` call, including the first call after a recreation resized a
fence array.  Evaluating the code at a failing input: after an
`OUT_OF_DATE` acquire at slot 2 triggers a successful recreation to a
2-image chain, the frame counter is still 2 (below `MAX_FRAMES_IN_FLIGHT`)
but `command_completion_fences` now has length 2, so the very next `render`
call's indexing `command_completion_fences[frame]` (src/app.rs line 174) is
out of bounds — a Rust panic. -/
theorem render_oob_after_shrinking_recreate :
    (render app0 (Except.error ErrorCode.OUT_OF_DATE_KHR)
      (Except.ok SuccessCode.SUCCESS) (Except.ok cfg2)).1 = RenderResult.ok ∧
    appAfterShrink.frame = 2 ∧
    appAfterShrink.frame < MAX_FRAMES_IN_FLIGHT ∧
    appAfterShrink.data.command_completion_fences.length = 2 ∧
    (render appAfterShrink (Except.ok (0, SuccessCode.SUCCESS))
      (Except.ok SuccessCode.SUCCESS) (Except.ok cfg2)).1 = RenderResult.oob := by
  decide

/-! ### C5 -/

/-- C5: if acquisition fails with `OUT_OF_DATE`, `render` aborts the frame,
performs a full swapchain recreation (device-idle barrier, teardown, rebuild)
and returns its outcome without advancing the frame counter; any other
acquire failure is propagated as-is, with no recreation and no frame-counter
advance. -/
theorem render_acquire_failure_handling (app : App)
    (pr : Except ErrorCode SuccessCode) (cfg : SwapchainCfg)
    (rc : Except ErrorCode SwapchainCfg) (e : ErrorCode)
    (ff : Fence) (sem : Semaphore)
    (hf : app.data.command_completion_fences[app.frame]? = some ff)
    (hs : app.data.image_available_semaphores[app.frame]? = some sem)
    (he : e ≠ ErrorCode.OUT_OF_DATE_KHR) :
    ((render app (Except.error ErrorCode.OUT_OF_DATE_KHR) pr (Except.ok cfg)).1 =
        RenderResult.ok ∧
     (render app (Except.error ErrorCode.OUT_OF_DATE_KHR) pr (Except.ok cfg)).2.1.frame =
        app.frame ∧
     (render app (Except.error ErrorCode.OUT_OF_DATE_KHR) pr (Except.ok cfg)).2.2 =
       [Event.WaitForFences [ff], Event.AcquireNextImage sem,
        Event.DeviceWaitIdle, Event.DestroySwapchainObjects,
        Event.CreateSwapchainObjects cfg.newImages.length]) ∧
    render app (Except.error e) pr rc =
      (RenderResult.vkError e, app,
       [Event.WaitForFences [ff], Event.AcquireNextImage sem]) := by
  constructor
  · refine ⟨?_, ?_, ?_⟩ <;> simp [render, recreate_swapchain, hf, hs]
  · cases e <;> first
      | exact absurd rfl he
      | simp [render, hf, hs]

/-- Witness for C5 at the concrete state `app0` with a 3-image rebuild and a
`DEVICE_LOST` acquire failure. -/
theorem render_acquire_failure_handling_witness :
    app0.data.command_completion_fences[app0.frame]? = some 6 ∧
    app0.data.image_available_semaphores[app0.frame]? = some 13 ∧
    ErrorCode.DEVICE_LOST ≠ ErrorCode.OUT_OF_DATE_KHR ∧
    (((render app0 (Except.error ErrorCode.OUT_OF_DATE_KHR)
        (Except.ok SuccessCode.SUCCESS) (Except.ok cfg3)).1 = RenderResult.ok ∧
      (render app0 (Except.error ErrorCode.OUT_OF_DATE_KHR)
        (Except.ok SuccessCode.SUCCESS) (Except.ok cfg3)).2.1.frame = app0.frame ∧
      (render app0 (Except.error ErrorCode.OUT_OF_DATE_KHR)
        (Except.ok SuccessCode.SUCCESS) (Except.ok cfg3)).2.2 =
        [Event.WaitForFences [6], Event.AcquireNextImage 13,
         Event.DeviceWaitIdle, Event.DestroySwapchainObjects,
         Event.CreateSwapchainObjects cfg3.newImages.length]) ∧
     render app0 (Except.error ErrorCode.DEVICE_LOST)
        (Except.ok SuccessCode.SUCCESS) (Except.ok cfg3) =
       (RenderResult.vkError ErrorCode.DEVICE_LOST, app0,
        [Event.WaitForFences [6], Event.AcquireNextImage 13])) :=
  ⟨by decide, by decide, by decide,
   render_acquire_failure_handling app0 (Except.ok SuccessCode.SUCCESS) cfg3
     (Except.ok cfg3) ErrorCode.DEVICE_LOST 6 13 (by decide) (by decide) (by decide)⟩

/-! ### C10 -/

/-- C10: if acquisition fails with any error other than `OUT_OF_DATE`,
`render` returns that error with the app state — frame counter, resized flag,
every `image_usage_fences` entry, and the CPU-visible fence signal states —
exactly as before the call (the whole state is unchanged), and the trace
contains no fence reset, no submission, no present, and no recreation. -/
theorem render_acquire_fatal_no_side_effects (app : App)
    (pr : Except ErrorCode SuccessCode) (rc : Except ErrorCode SwapchainCfg)
    (e : ErrorCode) (ff : Fence) (sem : Semaphore)
    (hf : app.data.command_completion_fences[app.frame]? = some ff)
    (hs : app.data.image_available_semaphores[app.frame]? = some sem)
    (he : e ≠ ErrorCode.OUT_OF_DATE_KHR) :
    (render app (Except.error e) pr rc).1 = RenderResult.vkError e ∧
    (render app (Except.error e) pr rc).2.1 = app ∧
    (render app (Except.error e) pr rc).2.2 =
      [Event.WaitForFences [ff], Event.AcquireNextImage sem] ∧
    ∀ ev ∈ (render app (Except.error e) pr rc).2.2,
      isResetEvent ev = false ∧ isSubmitEvent ev = false ∧
      isPresentEvent ev = false ∧ isRecreationEvent ev = false := by
  have hrender : render app (Except.error e) pr rc =
      (RenderResult.vkError e, app,
       [Event.WaitForFences [ff], Event.AcquireNextImage sem]) := by
    cases e <;> first
      | exact absurd rfl he
      | simp [render, hf, hs]
  refine ⟨by rw [hrender], by rw [hrender], by rw [hrender], ?_⟩
  rw [hrender]
  intro ev hev
  simp only [List.mem_cons, List.not_mem_nil, or_false] at hev
  rcases hev with rfl | rfl <;>
    simp [isResetEvent, isSubmitEvent, isPresentEvent, isRecreationEvent]

/-- Witness for C10 at `app0` with an `OUT_OF_HOST_MEMORY` acquire failure. -/
theorem render_acquire_fatal_no_side_effects_witness :
    app0.data.command_completion_fences[app0.frame]? = some 6 ∧
    app0.data.image_available_semaphores[app0.frame]? = some 13 ∧
    ErrorCode.OUT_OF_HOST_MEMORY ≠ ErrorCode.OUT_OF_DATE_KHR ∧
    ((render app0 (Except.error ErrorCode.OUT_OF_HOST_MEMORY)
        (Except.ok SuccessCode.SUCCESS) (Except.ok cfg3)).1 =
      RenderResult.vkError ErrorCode.OUT_OF_HOST_MEMORY ∧
     (render app0 (Except.error ErrorCode.OUT_OF_HOST_MEMORY)
        (Except.ok SuccessCode.SUCCESS) (Except.ok cfg3)).2.1 = app0 ∧
     (render app0 (Except.error ErrorCode.OUT_OF_HOST_MEMORY)
        (Except.ok SuccessCode.SUCCESS) (Except.ok cfg3)).2.2 =
       [Event.WaitForFences [6], Event.AcquireNextImage 13] ∧
     ∀ ev ∈ (render app0 (Except.error ErrorCode.OUT_OF_HOST_MEMORY)
        (Except.ok SuccessCode.SUCCESS) (Except.ok cfg3)).2.2,
       isResetEvent ev = false ∧ isSubmitEvent ev = false ∧
       isPresentEvent ev = false ∧ isRecreationEvent ev = false) :=
  ⟨by decide, by decide, by decide,
   render_acquire_fatal_no_side_effects app0 (Except.ok SuccessCode.SUCCESS)
     (Except.ok cfg3) ErrorCode.OUT_OF_HOST_MEMORY 6 13
     (by decide) (by decide) (by decide)⟩

/-! ### Characterization of the successful-acquire path of `render` -/

/-- The `vk::SubmitInfo` that `render` builds (src/app.rs lines 223-241):
waits on the slot's image-available semaphore at the color-attachment-output
stage, runs the acquired image's command buffer, signals the slot's
render-finished semaphore. -/
def builtSubmitInfo (sem cb rf : Handle) : SubmitInfo :=
  { wait_semaphores := [sem],
    wait_dst_stage_mask := [PipelineStageFlags.COLOR_ATTACHMENT_OUTPUT],
    command_buffers := [cb],
    signal_semaphores := [rf] }

/-- The app state after `render` has stored the slot fence `ff` as image
`ii`'s last-use fence and reset `ff` (unsignaled), before the present
outcome is handled. -/
def appAfterSubmit (app : App) (ii : Nat) (ff : Fence) : App :=
  { app with
    data := { app.data with
      image_usage_fences := app.data.image_usage_fences.set ii ff },
    device := { app.device with
      signaledFences := app.device.signaledFences.filter (fun f => f != ff) } }

/-- The trace of driver calls from the top of `render` through the present
call, on the successful-acquire path: fence wait, acquire, optional wait on
the image's previous last-use fence, uniform update, fence reset, submission,
present. -/
def submittedTrace (ff sem imgF : Handle) (ii : Nat) (cb rf : Handle) : List Event :=
  [Event.WaitForFences [ff], Event.AcquireNextImage sem] ++
  (if fenceIsNull imgF then [] else [Event.WaitForFences [imgF]]) ++
  [Event.UpdateUniformBuffer ii,
   Event.ResetFences [ff],
   Event.QueueSubmit (builtSubmitInfo sem cb rf) ff,
   Event.QueuePresent [rf] ii]

/-- `recreate_swapchain` never touches the frame counter. -/
theorem recreate_swapchain_frame (a : App) (rc : Except ErrorCode SwapchainCfg) :
    (recreate_swapchain a rc).2.1.frame = a.frame := by
  cases rc <;> simp [recreate_swapchain]

/-- `recreate_swapchain` never touches the resized flag. -/
theorem recreate_swapchain_resized (a : App) (rc : Except ErrorCode SwapchainCfg) :
    (recreate_swapchain a rc).2.1.resized = a.resized := by
  cases rc <;> simp [recreate_swapchain]

/-- `recreate_swapchain` never touches the last-use fence array. -/
theorem recreate_swapchain_image_usage (a : App) (rc : Except ErrorCode SwapchainCfg) :
    (recreate_swapchain a rc).2.1.data.image_usage_fences = a.data.image_usage_fences := by
  cases rc <;> simp [recreate_swapchain]

/-- Every event emitted by `recreate_swapchain` is a recreation event; in
particular its trace holds no uniform update, fence reset, submission or
present. -/
theorem recreate_swapchain_trace_events (a : App) (rc : Except ErrorCode SwapchainCfg) :
    ∀ ev ∈ (recreate_swapchain a rc).2.2, isRecreationEvent ev = true := by
  cases rc <;>
    · intro ev hev
      simp only [recreate_swapchain, List.mem_cons, List.not_mem_nil, or_false] at hev
      rcases hev with rfl | hev <;> first
        | rfl
        | (rcases hev with rfl | rfl <;> rfl)

/-- Master characterization of `render` on the successful-acquire path: with
all the indexed array entries pinned, `render` reduces to the submitted
trace followed by the present-outcome handling of src/app.rs lines 269-283. -/
theorem render_success_eq (app : App) (ii : Nat) (sc : SuccessCode)
    (pr : Except ErrorCode SuccessCode) (rc : Except ErrorCode SwapchainCfg)
    (ff sem imgF ubm cb rf : Handle)
    (hf : app.data.command_completion_fences[app.frame]? = some ff)
    (hs : app.data.image_available_semaphores[app.frame]? = some sem)
    (hiu : app.data.image_usage_fences[ii]? = some imgF)
    (hub : app.data.uniform_buffers_memory[ii]? = some ubm)
    (hcb : app.data.command_buffers[ii]? = some cb)
    (hrf : app.data.render_finished_semaphores[app.frame]? = some rf) :
    render app (Except.ok (ii, sc)) pr rc =
      if app.resized || presentChanged pr then
        let r := recreate_swapchain { appAfterSubmit app ii ff with resized := false } rc
        match rc with
        | Except.error e =>
          (RenderResult.vkError e, r.2.1, submittedTrace ff sem imgF ii cb rf ++ r.2.2)
        | Except.ok _ =>
          (RenderResult.ok,
           { r.2.1 with frame := (r.2.1.frame + 1) % MAX_FRAMES_IN_FLIGHT },
           submittedTrace ff sem imgF ii cb rf ++ r.2.2)
      else
        match pr with
        | Except.error e =>
          (RenderResult.vkError e, appAfterSubmit app ii ff,
           submittedTrace ff sem imgF ii cb rf)
        | Except.ok _ =>
          (RenderResult.ok,
           { appAfterSubmit app ii ff with
               frame := (app.frame + 1) % MAX_FRAMES_IN_FLIGHT },
           submittedTrace ff sem imgF ii cb rf) := by
  cases hcond : app.resized || presentChanged pr
  · cases pr <;>
      simp [render, recreate_swapchain, appAfterSubmit, submittedTrace, builtSubmitInfo,
            hf, hs, hiu, hub, hcb, hrf, hcond]
  · cases rc <;>
      simp [render, recreate_swapchain, appAfterSubmit, submittedTrace, builtSubmitInfo,
            hf, hs, hiu, hub, hcb, hrf, hcond]

/-! ### C6 -/

/-- C6: when `render` acquires an image whose last-use fence entry `imgF` is
non-null, the trace shows a blocking wait on exactly that fence after the
acquire and before both the uniform-buffer update and the queue submission;
and the final state stores the current slot's command-completion fence `ff`
as the image's new last-use fence. -/
theorem render_waits_on_last_use_fence (app : App) (ii : Nat) (sc : SuccessCode)
    (pr : Except ErrorCode SuccessCode) (rc : Except ErrorCode SwapchainCfg)
    (ff sem imgF ubm cb rf : Handle)
    (hf : app.data.command_completion_fences[app.frame]? = some ff)
    (hs : app.data.image_available_semaphores[app.frame]? = some sem)
    (hiu : app.data.image_usage_fences[ii]? = some imgF)
    (hub : app.data.uniform_buffers_memory[ii]? = some ubm)
    (hcb : app.data.command_buffers[ii]? = some cb)
    (hrf : app.data.render_finished_semaphores[app.frame]? = some rf)
    (hnn : fenceIsNull imgF = false) :
    (∃ tail,
      (render app (Except.ok (ii, sc)) pr rc).2.2 =
        [Event.WaitForFences [ff], Event.AcquireNextImage sem,
         Event.WaitForFences [imgF], Event.UpdateUniformBuffer ii,
         Event.ResetFences [ff],
         Event.QueueSubmit (builtSubmitInfo sem cb rf) ff,
         Event.QueuePresent [rf] ii] ++ tail) ∧
    (render app (Except.ok (ii, sc)) pr rc).2.1.data.image_usage_fences =
      app.data.image_usage_fences.set ii ff := by
  rw [render_success_eq app ii sc pr rc ff sem imgF ubm cb rf hf hs hiu hub hcb hrf]
  cases hcond : app.resized || presentChanged pr
  · cases pr <;>
      exact ⟨⟨[], by simp [submittedTrace, hnn]⟩, by simp [appAfterSubmit]⟩
  · cases rc with
    | error e =>
      refine ⟨⟨(recreate_swapchain
          { appAfterSubmit app ii ff with resized := false } (Except.error e)).2.2, ?_⟩, ?_⟩
      · simp [submittedTrace, hnn]
      · simp [recreate_swapchain_image_usage, appAfterSubmit]
    | ok cfg =>
      refine ⟨⟨(recreate_swapchain
          { appAfterSubmit app ii ff with resized := false } (Except.ok cfg)).2.2, ?_⟩, ?_⟩
      · simp [submittedTrace, hnn]
      · simp [recreate_swapchain_image_usage, appAfterSubmit]

/-- Witness for C6 at `app0`, slot 2, acquiring image 0 whose last-use fence
is the non-null fence 6. -/
theorem render_waits_on_last_use_fence_witness :
    app0.data.command_completion_fences[app0.frame]? = some 6 ∧
    app0.data.image_available_semaphores[app0.frame]? = some 13 ∧
    app0.data.image_usage_fences[0]? = some 6 ∧
    app0.data.uniform_buffers_memory[0]? = some 51 ∧
    app0.data.command_buffers[0]? = some 41 ∧
    app0.data.render_finished_semaphores[app0.frame]? = some 23 ∧
    fenceIsNull 6 = false ∧
    ((∃ tail,
      (render app0 (Except.ok (0, SuccessCode.SUCCESS))
        (Except.ok SuccessCode.SUCCESS) (Except.ok cfg3)).2.2 =
        [Event.WaitForFences [6], Event.AcquireNextImage 13,
         Event.WaitForFences [6], Event.UpdateUniformBuffer 0,
         Event.ResetFences [6],
         Event.QueueSubmit (builtSubmitInfo 13 41 23) 6,
         Event.QueuePresent [23] 0] ++ tail) ∧
     (render app0 (Except.ok (0, SuccessCode.SUCCESS))
        (Except.ok SuccessCode.SUCCESS) (Except.ok cfg3)).2.1.data.image_usage_fences =
       app0.data.image_usage_fences.set 0 6) :=
  ⟨by decide, by decide, by decide, by decide, by decide, by decide, by decide,
   render_waits_on_last_use_fence app0 0 SuccessCode.SUCCESS
     (Except.ok SuccessCode.SUCCESS) (Except.ok cfg3) 6 13 6 51 41 23
     (by decide) (by decide) (by decide) (by decide) (by decide) (by decide) (by decide)⟩

/-! ### C4 -/

/-- C4 counterexample: the claim states `render` first resets the slot's
command-completion fence, then updates the uniform data, then submits.  At a
concrete input the trace shows the uniform-buffer update strictly before the
fence reset (the source calls `update_uniform_buffer` at line 221 and
`reset_fences` only at line 246), refuting the claimed order. -/
theorem render_updates_uniform_before_reset_counterexample :
    (render app0 (Except.ok (1, SuccessCode.SUCCESS))
      (Except.ok SuccessCode.SUCCESS) (Except.ok cfg3)).2.2 =
      [Event.WaitForFences [6], Event.AcquireNextImage 13,
       Event.UpdateUniformBuffer 1, Event.ResetFences [6],
       Event.QueueSubmit (builtSubmitInfo 13 42 23) 6,
       Event.QueuePresent [23] 1] ∧
    (render app0 (Except.ok (1, SuccessCode.SUCCESS))
      (Except.ok SuccessCode.SUCCESS) (Except.ok cfg3)).2.2.findIdx isUpdateEvent <
      (render app0 (Except.ok (1, SuccessCode.SUCCESS))
        (Except.ok SuccessCode.SUCCESS) (Except.ok cfg3)).2.2.findIdx isResetEvent ∧
    ¬ ((render app0 (Except.ok (1, SuccessCode.SUCCESS))
        (Except.ok SuccessCode.SUCCESS) (Except.ok cfg3)).2.2.findIdx isResetEvent <
       (render app0 (Except.ok (1, SuccessCode.SUCCESS))
        (Except.ok SuccessCode.SUCCESS) (Except.ok cfg3)).2.2.findIdx isUpdateEvent) := by
  decide

/-- C4 amended: in the Acquired-to-Submitted transition `render` first
updates the per-frame uniform data, then resets the slot's
command-completion fence, then submits the acquired image's command buffer —
and none of those three operations occur earlier in the frame. -/
theorem render_update_then_reset_then_submit (app : App) (ii : Nat) (sc : SuccessCode)
    (pr : Except ErrorCode SuccessCode) (rc : Except ErrorCode SwapchainCfg)
    (ff sem imgF ubm cb rf : Handle)
    (hf : app.data.command_completion_fences[app.frame]? = some ff)
    (hs : app.data.image_available_semaphores[app.frame]? = some sem)
    (hiu : app.data.image_usage_fences[ii]? = some imgF)
    (hub : app.data.uniform_buffers_memory[ii]? = some ubm)
    (hcb : app.data.command_buffers[ii]? = some cb)
    (hrf : app.data.render_finished_semaphores[app.frame]? = some rf) :
    ∃ pre tail,
      (render app (Except.ok (ii, sc)) pr rc).2.2 =
        pre ++ [Event.UpdateUniformBuffer ii, Event.ResetFences [ff],
                Event.QueueSubmit (builtSubmitInfo sem cb rf) ff] ++ tail ∧
      ∀ ev ∈ pre, isUpdateEvent ev = false ∧ isResetEvent ev = false ∧
        isSubmitEvent ev = false := by
  rw [render_success_eq app ii sc pr rc ff sem imgF ubm cb rf hf hs hiu hub hcb hrf]
  have hpre : ∀ ev ∈ [Event.WaitForFences [ff], Event.AcquireNextImage sem] ++
      (if fenceIsNull imgF then [] else [Event.WaitForFences [imgF]]),
      isUpdateEvent ev = false ∧ isResetEvent ev = false ∧ isSubmitEvent ev = false := by
    intro ev hev
    have hcases : ev = Event.WaitForFences [ff] ∨ ev = Event.AcquireNextImage sem ∨
        ev = Event.WaitForFences [imgF] := by
      cases hni : fenceIsNull imgF <;> simp [hni] at hev <;> tauto
    rcases hcases with rfl | rfl | rfl <;>
      simp [isUpdateEvent, isResetEvent, isSubmitEvent]
  cases hcond : app.resized || presentChanged pr
  · cases pr <;>
      exact ⟨[Event.WaitForFences [ff], Event.AcquireNextImage sem] ++
        (if fenceIsNull imgF then [] else [Event.WaitForFences [imgF]]),
        [Event.QueuePresent [rf] ii],
        by simp [submittedTrace], hpre⟩
  · cases rc with
    | error e =>
      exact ⟨[Event.WaitForFences [ff], Event.AcquireNextImage sem] ++
        (if fenceIsNull imgF then [] else [Event.WaitForFences [imgF]]),
        Event.QueuePresent [rf] ii ::
          (recreate_swapchain { appAfterSubmit app ii ff with resized := false }
            (Except.error e)).2.2,
        by simp [submittedTrace], hpre⟩
    | ok cfg =>
      exact ⟨[Event.WaitForFences [ff], Event.AcquireNextImage sem] ++
        (if fenceIsNull imgF then [] else [Event.WaitForFences [imgF]]),
        Event.QueuePresent [rf] ii ::
          (recreate_swapchain { appAfterSubmit app ii ff with resized := false }
            (Except.ok cfg)).2.2,
        by simp [submittedTrace], hpre⟩

/-- Witness for C4's amended theorem at `app0`, slot 2, acquiring image 1. -/
theorem render_update_then_reset_then_submit_witness :
    app0.data.command_completion_fences[app0.frame]? = some 6 ∧
    app0.data.image_available_semaphores[app0.frame]? = some 13 ∧
    app0.data.image_usage_fences[1]? = some 0 ∧
    app0.data.uniform_buffers_memory[1]? = some 52 ∧
    app0.data.command_buffers[1]? = some 42 ∧
    app0.data.render_finished_semaphores[app0.frame]? = some 23 ∧
    (∃ pre tail,
      (render app0 (Except.ok (1, SuccessCode.SUCCESS))
        (Except.ok SuccessCode.SUCCESS) (Except.ok cfg3)).2.2 =
        pre ++ [Event.UpdateUniformBuffer 1, Event.ResetFences [6],
                Event.QueueSubmit (builtSubmitInfo 13 42 23) 6] ++ tail ∧
      ∀ ev ∈ pre, isUpdateEvent ev = false ∧ isResetEvent ev = false ∧
        isSubmitEvent ev = false) :=
  ⟨by decide, by decide, by decide, by decide, by decide, by decide,
   render_update_then_reset_then_submit app0 1 SuccessCode.SUCCESS
     (Except.ok SuccessCode.SUCCESS) (Except.ok cfg3) 6 13 0 52 42 23
     (by decide) (by decide) (by decide) (by decide) (by decide) (by decide)⟩

/-! ### C7 -/

/-- The events of `submittedTrace` before the present call. -/
def preSubmitTrace (ff sem imgF : Handle) (ii : Nat) (cb rf : Handle) : List Event :=
  [Event.WaitForFences [ff], Event.AcquireNextImage sem] ++
  (if fenceIsNull imgF then [] else [Event.WaitForFences [imgF]]) ++
  [Event.UpdateUniformBuffer ii, Event.ResetFences [ff],
   Event.QueueSubmit (builtSubmitInfo sem cb rf) ff]

/-- `submittedTrace` is the pre-present events followed by the present call. -/
theorem submittedTrace_split (ff sem imgF : Handle) (ii : Nat) (cb rf : Handle) :
    submittedTrace ff sem imgF ii cb rf =
      preSubmitTrace ff sem imgF ii cb rf ++ [Event.QueuePresent [rf] ii] := by
  cases hni : fenceIsNull imgF <;> simp [submittedTrace, preSubmitTrace, hni]

/-- No event before the present call is a recreation event. -/
theorem preSubmitTrace_no_recreation (ff sem imgF : Handle) (ii : Nat) (cb rf : Handle) :
    ∀ ev ∈ preSubmitTrace ff sem imgF ii cb rf, isRecreationEvent ev = false := by
  intro ev hev
  have hcases : ev = Event.WaitForFences [ff] ∨ ev = Event.AcquireNextImage sem ∨
      ev = Event.WaitForFences [imgF] ∨ ev = Event.UpdateUniformBuffer ii ∨
      ev = Event.ResetFences [ff] ∨
      ev = Event.QueueSubmit (builtSubmitInfo sem cb rf) ff := by
    cases hni : fenceIsNull imgF <;> simp [preSubmitTrace, hni] at hev <;> tauto
  rcases hcases with rfl | rfl | rfl | rfl | rfl | rfl <;> rfl

/-- No event in `submittedTrace` is a recreation event. -/
theorem submittedTrace_any_recreation (ff sem imgF : Handle) (ii : Nat) (cb rf : Handle) :
    (submittedTrace ff sem imgF ii cb rf).any isRecreationEvent = false := by
  cases hni : fenceIsNull imgF <;>
    simp [submittedTrace, hni, isRecreationEvent]

/-- `app0` with the externally-set resize flag raised. -/
def app0resized : App := { app0 with resized := true }

/-- C7 counterexample: the claim states that any present error other than
`OUT_OF_DATE` is returned to the caller as fatal.  At a concrete input with
the resized flag set and `queue_present_khr` failing with `DEVICE_LOST`,
`render` instead swallows the error: it recreates the swapchain, returns
success and advances the frame counter (the `self.resized || changed` branch
of src/app.rs lines 274-279 shadows the `else if let Err(e)` arm). -/
theorem render_present_fatal_error_swallowed :
    (render app0resized (Except.ok (1, SuccessCode.SUCCESS))
      (Except.error ErrorCode.DEVICE_LOST) (Except.ok cfg3)).1 = RenderResult.ok ∧
    (render app0resized (Except.ok (1, SuccessCode.SUCCESS))
      (Except.error ErrorCode.DEVICE_LOST) (Except.ok cfg3)).1 ≠
      RenderResult.vkError ErrorCode.DEVICE_LOST ∧
    (render app0resized (Except.ok (1, SuccessCode.SUCCESS))
      (Except.error ErrorCode.DEVICE_LOST) (Except.ok cfg3)).2.1.frame =
      (app0resized.frame + 1) % MAX_FRAMES_IN_FLIGHT ∧
    (render app0resized (Except.ok (1, SuccessCode.SUCCESS))
      (Except.error ErrorCode.DEVICE_LOST) (Except.ok cfg3)).2.2.any
        isRecreationEvent = true := by
  decide

/-- C7 amended: after the present call returns, `render` triggers swapchain
recreation exactly when the present result is `SUBOPTIMAL`, the present error
is `OUT_OF_DATE`, or the resized flag is set (and the flag ends cleared);
recreation events never precede the present call; a present error other than
`OUT_OF_DATE` is returned as fatal only when recreation was not triggered —
when the resized flag is set the error is discarded and recreation runs to a
successful return — and whenever `render` returns success the frame counter
advances by 1 modulo `MAX_FRAMES_IN_FLIGHT`. -/
theorem render_present_outcome_handling (app : App) (ii : Nat) (sc : SuccessCode)
    (pr : Except ErrorCode SuccessCode) (cfg : SwapchainCfg)
    (ff sem imgF ubm cb rf : Handle)
    (hf : app.data.command_completion_fences[app.frame]? = some ff)
    (hs : app.data.image_available_semaphores[app.frame]? = some sem)
    (hiu : app.data.image_usage_fences[ii]? = some imgF)
    (hub : app.data.uniform_buffers_memory[ii]? = some ubm)
    (hcb : app.data.command_buffers[ii]? = some cb)
    (hrf : app.data.render_finished_semaphores[app.frame]? = some rf) :
    (render app (Except.ok (ii, sc)) pr (Except.ok cfg)).2.2.any isRecreationEvent =
      (app.resized || presentChanged pr) ∧
    (∃ pre tail,
      (render app (Except.ok (ii, sc)) pr (Except.ok cfg)).2.2 =
        pre ++ Event.QueuePresent [rf] ii :: tail ∧
      ∀ ev ∈ pre, isRecreationEvent ev = false) ∧
    (render app (Except.ok (ii, sc)) pr (Except.ok cfg)).2.1.resized = false ∧
    (∀ e, pr = Except.error e → (app.resized || presentChanged pr) = false →
      (render app (Except.ok (ii, sc)) pr (Except.ok cfg)).1 = RenderResult.vkError e ∧
      (render app (Except.ok (ii, sc)) pr (Except.ok cfg)).2.1.frame = app.frame) ∧
    ((render app (Except.ok (ii, sc)) pr (Except.ok cfg)).1 = RenderResult.ok →
      (render app (Except.ok (ii, sc)) pr (Except.ok cfg)).2.1.frame =
        (app.frame + 1) % MAX_FRAMES_IN_FLIGHT) ∧
    (app.resized = true →
      (render app (Except.ok (ii, sc)) pr (Except.ok cfg)).1 = RenderResult.ok) := by
  rw [render_success_eq app ii sc pr (Except.ok cfg) ff sem imgF ubm cb rf
    hf hs hiu hub hcb hrf]
  cases hcond : app.resized || presentChanged pr
  · have hres : app.resized = false := by
      rcases Bool.or_eq_false_iff.mp hcond with ⟨h, _⟩
      exact h
    cases pr with
    | error e =>
      refine ⟨?_, ?_, ?_, ?_, ?_, ?_⟩
      · simp [submittedTrace_any_recreation]
      · exact ⟨preSubmitTrace ff sem imgF ii cb rf, [],
          by simp [submittedTrace_split], preSubmitTrace_no_recreation ff sem imgF ii cb rf⟩
      · simp [appAfterSubmit, hres]
      · intro e' he' _
        simp only [Except.error.injEq] at he'
        subst he'
        exact ⟨rfl, by simp [appAfterSubmit]⟩
      · intro h
        exact absurd h (by simp)
      · intro h
        exact absurd h (by simp [hres])
    | ok s =>
      refine ⟨?_, ?_, ?_, ?_, ?_, ?_⟩
      · simp [submittedTrace_any_recreation]
      · exact ⟨preSubmitTrace ff sem imgF ii cb rf, [],
          by simp [submittedTrace_split], preSubmitTrace_no_recreation ff sem imgF ii cb rf⟩
      · simp [appAfterSubmit, hres]
      · intro e' he' _
        exact absurd he' (by simp)
      · intro _
        simp [appAfterSubmit]
      · intro h
        exact absurd h (by simp [hres])
  · refine ⟨?_, ?_, ?_, ?_, ?_, ?_⟩
    · simp [List.any_append, submittedTrace_any_recreation, recreate_swapchain,
        isRecreationEvent]
    · refine ⟨preSubmitTrace ff sem imgF ii cb rf,
        (recreate_swapchain { appAfterSubmit app ii ff with resized := false }
          (Except.ok cfg)).2.2, ?_, preSubmitTrace_no_recreation ff sem imgF ii cb rf⟩
      simp [submittedTrace_split]
    · simp [recreate_swapchain_resized]
    · intro e' _ hcontr
      exact absurd hcontr (by simp)
    · intro _
      simp [recreate_swapchain_frame, appAfterSubmit]
    · intro _
      simp

/-! ### C8 -/

/-- The submission event with the exact submit info is in the submitted
trace. -/
theorem submit_mem_submittedTrace (ff sem imgF : Handle) (ii : Nat) (cb rf : Handle) :
    Event.QueueSubmit (builtSubmitInfo sem cb rf) ff ∈
      submittedTrace ff sem imgF ii cb rf := by
  cases hni : fenceIsNull imgF <;> simp [submittedTrace, hni]

/-- Any submission event in the submitted trace carries exactly the built
submit info and the slot's command-completion fence. -/
theorem submittedTrace_submit_unique (ff sem imgF : Handle) (ii : Nat) (cb rf : Handle) :
    ∀ si f, Event.QueueSubmit si f ∈ submittedTrace ff sem imgF ii cb rf →
      si = builtSubmitInfo sem cb rf ∧ f = ff := by
  intro si f h
  cases hni : fenceIsNull imgF <;> simp [submittedTrace, hni] at h <;> tauto

/-- `recreate_swapchain` emits no submission events. -/
theorem recreate_swapchain_no_submit (a : App) (rc : Except ErrorCode SwapchainCfg)
    (si : SubmitInfo) (f : Fence) :
    Event.QueueSubmit si f ∈ (recreate_swapchain a rc).2.2 → False := by
  intro h
  have hrec := recreate_swapchain_trace_events a rc _ h
  simp [isRecreationEvent] at hrec

/-- C8: every queue submission issued by `render` waits on exactly one
semaphore — the slot's image-available semaphore — at exactly the
`COLOR_ATTACHMENT_OUTPUT` stage, runs exactly the acquired image's command
buffer, and signals exactly the slot's render-finished semaphore plus the
slot's command-completion fence; and such a submission does occur. -/
theorem render_submission_configuration (app : App) (ii : Nat) (sc : SuccessCode)
    (pr : Except ErrorCode SuccessCode) (rc : Except ErrorCode SwapchainCfg)
    (ff sem imgF ubm cb rf : Handle)
    (hf : app.data.command_completion_fences[app.frame]? = some ff)
    (hs : app.data.image_available_semaphores[app.frame]? = some sem)
    (hiu : app.data.image_usage_fences[ii]? = some imgF)
    (hub : app.data.uniform_buffers_memory[ii]? = some ubm)
    (hcb : app.data.command_buffers[ii]? = some cb)
    (hrf : app.data.render_finished_semaphores[app.frame]? = some rf) :
    (builtSubmitInfo sem cb rf).wait_semaphores = [sem] ∧
    (builtSubmitInfo sem cb rf).wait_dst_stage_mask =
      [PipelineStageFlags.COLOR_ATTACHMENT_OUTPUT] ∧
    (builtSubmitInfo sem cb rf).command_buffers = [cb] ∧
    (builtSubmitInfo sem cb rf).signal_semaphores = [rf] ∧
    Event.QueueSubmit (builtSubmitInfo sem cb rf) ff ∈
      (render app (Except.ok (ii, sc)) pr rc).2.2 ∧
    ∀ si f, Event.QueueSubmit si f ∈ (render app (Except.ok (ii, sc)) pr rc).2.2 →
      si = builtSubmitInfo sem cb rf ∧ f = ff := by
  rw [render_success_eq app ii sc pr rc ff sem imgF ubm cb rf hf hs hiu hub hcb hrf]
  have hmem := submit_mem_submittedTrace ff sem imgF ii cb rf
  cases hcond : app.resized || presentChanged pr
  · cases pr with
    | error e =>
      refine ⟨rfl, rfl, rfl, rfl, (by simpa using hmem), ?_⟩
      intro si f h
      exact submittedTrace_submit_unique ff sem imgF ii cb rf si f (by simpa using h)
    | ok s =>
      refine ⟨rfl, rfl, rfl, rfl, (by simpa using hmem), ?_⟩
      intro si f h
      exact submittedTrace_submit_unique ff sem imgF ii cb rf si f (by simpa using h)
  · cases rc with
    | error e =>
      refine ⟨rfl, rfl, rfl, rfl, ?_, ?_⟩
      · simpa using Or.inl hmem
      · intro si f h
        rcases List.mem_append.mp (by simpa using h) with h' | h'
        · exact submittedTrace_submit_unique ff sem imgF ii cb rf si f h'
        · exact absurd h' (fun hc => recreate_swapchain_no_submit _ _ si f hc)
    | ok cfg =>
      refine ⟨rfl, rfl, rfl, rfl, ?_, ?_⟩
      · simpa using Or.inl hmem
      · intro si f h
        rcases List.mem_append.mp (by simpa using h) with h' | h'
        · exact submittedTrace_submit_unique ff sem imgF ii cb rf si f h'
        · exact absurd h' (fun hc => recreate_swapchain_no_submit _ _ si f hc)

/-! ### C9 -/

/-- C9: `create_sync_objects` appends exactly `MAX_FRAMES_IN_FLIGHT`
(semaphore, semaphore, fence) triples to the three per-slot arrays, every
appended command-completion fence is created in the pre-signaled state, and
`image_usage_fences` is set to exactly one null fence per swapchain image;
the emitted trace contains no blocking wait. -/
theorem create_sync_objects_contract (d : DeviceState) (data : AppData) :
    (create_sync_objects d data).2.1.image_available_semaphores =
      data.image_available_semaphores ++
        [d.nextHandle, d.nextHandle + 3, d.nextHandle + 6] ∧
    (create_sync_objects d data).2.1.render_finished_semaphores =
      data.render_finished_semaphores ++
        [d.nextHandle + 1, d.nextHandle + 4, d.nextHandle + 7] ∧
    (create_sync_objects d data).2.1.command_completion_fences =
      data.command_completion_fences ++
        [d.nextHandle + 2, d.nextHandle + 5, d.nextHandle + 8] ∧
    (∀ f ∈ [d.nextHandle + 2, d.nextHandle + 5, d.nextHandle + 8],
      f ∈ (create_sync_objects d data).1.signaledFences) ∧
    (create_sync_objects d data).2.1.image_usage_fences =
      List.replicate data.swapchain_images.length Fence.null ∧
    ∀ ev ∈ (create_sync_objects d data).2.2, isBlockingWaitEvent ev = false := by
  have h : create_sync_objects d data =
      ({ nextHandle := d.nextHandle + 9,
         signaledFences := (d.nextHandle + 8) :: (d.nextHandle + 5) ::
           (d.nextHandle + 2) :: d.signaledFences },
       { data with
         image_available_semaphores := data.image_available_semaphores ++
           [d.nextHandle, d.nextHandle + 3, d.nextHandle + 6],
         render_finished_semaphores := data.render_finished_semaphores ++
           [d.nextHandle + 1, d.nextHandle + 4, d.nextHandle + 7],
         command_completion_fences := data.command_completion_fences ++
           [d.nextHandle + 2, d.nextHandle + 5, d.nextHandle + 8],
         image_usage_fences :=
           List.replicate data.swapchain_images.length Fence.null },
       [Event.CreateSemaphore d.nextHandle, Event.CreateSemaphore (d.nextHandle + 1),
        Event.CreateFence (d.nextHandle + 2) true,
        Event.CreateSemaphore (d.nextHandle + 3), Event.CreateSemaphore (d.nextHandle + 4),
        Event.CreateFence (d.nextHandle + 5) true,
        Event.CreateSemaphore (d.nextHandle + 6), Event.CreateSemaphore (d.nextHandle + 7),
        Event.CreateFence (d.nextHandle + 8) true]) := by
    simp only [create_sync_objects, MAX_FRAMES_IN_FLIGHT, syncObjectsLoop,
      create_semaphore, create_fence_signaled]
    norm_num
  rw [h]
  refine ⟨rfl, rfl, rfl, ?_, rfl, ?_⟩
  · intro f hfm
    simp only [List.mem_cons, List.not_mem_nil, or_false] at hfm
    rcases hfm with rfl | rfl | rfl <;> simp
  · intro ev hev
    simp only [List.mem_cons, List.not_mem_nil, or_false] at hev
    rcases hev with rfl | rfl | rfl | rfl | rfl | rfl | rfl | rfl | rfl <;> rfl

/-- Witness for C7 at `app0`, slot 2, acquiring image 1, present returning
plain success. -/
theorem render_present_outcome_handling_witness :
    app0.data.command_completion_fences[app0.frame]? = some 6 ∧
    app0.data.image_available_semaphores[app0.frame]? = some 13 ∧
    app0.data.image_usage_fences[1]? = some 0 ∧
    app0.data.uniform_buffers_memory[1]? = some 52 ∧
    app0.data.command_buffers[1]? = some 42 ∧
    app0.data.render_finished_semaphores[app0.frame]? = some 23 ∧
    ((render app0 (Except.ok (1, SuccessCode.SUCCESS))
        (Except.ok SuccessCode.SUCCESS) (Except.ok cfg3)).2.2.any isRecreationEvent =
      (app0.resized || presentChanged (Except.ok SuccessCode.SUCCESS)) ∧
     (∃ pre tail,
       (render app0 (Except.ok (1, SuccessCode.SUCCESS))
          (Except.ok SuccessCode.SUCCESS) (Except.ok cfg3)).2.2 =
         pre ++ Event.QueuePresent [23] 1 :: tail ∧
       ∀ ev ∈ pre, isRecreationEvent ev = false) ∧
     (render app0 (Except.ok (1, SuccessCode.SUCCESS))
        (Except.ok SuccessCode.SUCCESS) (Except.ok cfg3)).2.1.resized = false ∧
     (∀ e, Except.ok SuccessCode.SUCCESS = Except.error e →
       (app0.resized || presentChanged (Except.ok SuccessCode.SUCCESS)) = false →
       (render app0 (Except.ok (1, SuccessCode.SUCCESS))
          (Except.ok SuccessCode.SUCCESS) (Except.ok cfg3)).1 = RenderResult.vkError e ∧
       (render app0 (Except.ok (1, SuccessCode.SUCCESS))
          (Except.ok SuccessCode.SUCCESS) (Except.ok cfg3)).2.1.frame = app0.frame) ∧
     ((render app0 (Except.ok (1, SuccessCode.SUCCESS))
        (Except.ok SuccessCode.SUCCESS) (Except.ok cfg3)).1 = RenderResult.ok →
       (render app0 (Except.ok (1, SuccessCode.SUCCESS))
          (Except.ok SuccessCode.SUCCESS) (Except.ok cfg3)).2.1.frame =
         (app0.frame + 1) % MAX_FRAMES_IN_FLIGHT) ∧
     (app0.resized = true →
       (render app0 (Except.ok (1, SuccessCode.SUCCESS))
          (Except.ok SuccessCode.SUCCESS) (Except.ok cfg3)).1 = RenderResult.ok)) :=
  ⟨by decide, by decide, by decide, by decide, by decide, by decide,
   render_present_outcome_handling app0 1 SuccessCode.SUCCESS
     (Except.ok SuccessCode.SUCCESS) cfg3 6 13 0 52 42 23
     (by decide) (by decide) (by decide) (by decide) (by decide) (by decide)⟩

/-- Witness for C8 at `app0`, slot 2, acquiring image 1. -/
theorem render_submission_configuration_witness :
    app0.data.command_completion_fences[app0.frame]? = some 6 ∧
    app0.data.image_available_semaphores[app0.frame]? = some 13 ∧
    app0.data.image_usage_fences[1]? = some 0 ∧
    app0.data.uniform_buffers_memory[1]? = some 52 ∧
    app0.data.command_buffers[1]? = some 42 ∧
    app0.data.render_finished_semaphores[app0.frame]? = some 23 ∧
    ((builtSubmitInfo 13 42 23).wait_semaphores = [13] ∧
     (builtSubmitInfo 13 42 23).wait_dst_stage_mask =
       [PipelineStageFlags.COLOR_ATTACHMENT_OUTPUT] ∧
     (builtSubmitInfo 13 42 23).command_buffers = [42] ∧
     (builtSubmitInfo 13 42 23).signal_semaphores = [23] ∧
     Event.QueueSubmit (builtSubmitInfo 13 42 23) 6 ∈
       (render app0 (Except.ok (1, SuccessCode.SUCCESS))
          (Except.ok SuccessCode.SUCCESS) (Except.ok cfg3)).2.2 ∧
     ∀ si f, Event.QueueSubmit si f ∈
         (render app0 (Except.ok (1, SuccessCode.SUCCESS))
            (Except.ok SuccessCode.SUCCESS) (Except.ok cfg3)).2.2 →
       si = builtSubmitInfo 13 42 23 ∧ f = 6) :=
  ⟨by decide, by decide, by decide, by decide, by decide, by decide,
   render_submission_configuration app0 1 SuccessCode.SUCCESS
     (Except.ok SuccessCode.SUCCESS) (Except.ok cfg3) 6 13 0 52 42 23
     (by decide) (by decide) (by decide) (by decide) (by decide) (by decide)⟩

/-- A fresh device as seen by `create_sync_objects` at startup. -/
def freshDevice : DeviceState := { nextHandle := 1, signaledFences := [] }

/-- The `AppData` reaching `create_sync_objects` at startup: the swapchain
images exist, the synchronization arrays are still default-empty. -/
def initialData : AppData :=
  { swapchain_images := [31, 32, 33],
    command_buffers := [41, 42, 43],
    image_available_semaphores := [],
    render_finished_semaphores := [],
    command_completion_fences := [],
    image_usage_fences := [],
    uniform_buffers_memory := [51, 52, 53] }

/-- Witness for C9 at the startup state. -/
theorem create_sync_objects_contract_witness :
    (create_sync_objects freshDevice initialData).2.1.image_available_semaphores =
      initialData.image_available_semaphores ++ [1, 4, 7] ∧
    (create_sync_objects freshDevice initialData).2.1.render_finished_semaphores =
      initialData.render_finished_semaphores ++ [2, 5, 8] ∧
    (create_sync_objects freshDevice initialData).2.1.command_completion_fences =
      initialData.command_completion_fences ++ [3, 6, 9] ∧
    (∀ f ∈ [3, 6, 9],
      f ∈ (create_sync_objects freshDevice initialData).1.signaledFences) ∧
    (create_sync_objects freshDevice initialData).2.1.image_usage_fences =
      List.replicate initialData.swapchain_images.length Fence.null ∧
    ∀ ev ∈ (create_sync_objects freshDevice initialData).2.2,
      isBlockingWaitEvent ev = false :=
  create_sync_objects_contract freshDevice initialData

end VulkanTutorial
